import Mathlib

/-!
Verification of the lifecycle controller / answer-resolution engine of
`atomicapp` (`atomicapp/nulecule/main.py`, class `NuleculeManager`).

The Python source is shallowly embedded: dictionaries become association
lists with Python dict insertion semantics (`dictSet` replaces in place,
otherwise appends), filesystem state is an explicit `FS` value, external
collaborators (`Utils`, the `Nulecule` descriptor engine, `anymarkup`) are
modelled as environment parameters or effect records, and Python exceptions
become explicit error values paired with the partially mutated state.
Python truthiness of strings (empty string is falsy) and reference
aliasing of dict objects are modelled explicitly where the source depends
on them.
-/

set_option autoImplicit false

namespace Atomicapp


/-- A configuration section: a Python dict from keys to string values,
in insertion order. -/
abbrev ConfSect := List (String × String)

/-- An answers document: a Python dict from section names to sections,
in insertion order. -/
abbrev AnswersDoc := List (String × ConfSect)

/-- Python dict lookup `d.get(k)` / `d[k]` (as an `Option`). -/
def dictGet {α : Type} (d : List (String × α)) (k : String) : Option α :=
  match d with
  | [] => none
  | (k', v') :: rest => if k' = k then some v' else dictGet rest k

/-- Python dict assignment `d[k] = v`: replaces the value in place if the
key is present (keeping its position), otherwise appends a new entry. -/
def dictSet {α : Type} (d : List (String × α)) (k : String) (v : α) :
    List (String × α) :=
  match d with
  | [] => [(k, v)]
  | (k', v') :: rest =>
      if k' = k then (k, v) :: rest else (k', v') :: dictSet rest k v

@[simp] theorem dictGet_nil {α : Type} (k : String) :
    dictGet ([] : List (String × α)) k = none := rfl

@[simp] theorem dictGet_dictSet_self {α : Type}
    (d : List (String × α)) (k : String) (v : α) :
    dictGet (dictSet d k v) k = some v := by
  induction d with
  | nil => simp [dictGet, dictSet]
  | cons p rest ih =>
      by_cases h : p.1 = k
      · simp [dictGet, dictSet, h]
      · simp [dictGet, dictSet, h, ih]

@[simp] theorem dictGet_dictSet_ne {α : Type}
    (d : List (String × α)) (k k' : String) (v : α) (h : k' ≠ k) :
    dictGet (dictSet d k v) k' = dictGet d k' := by
  induction d with
  | nil => simp [dictGet, dictSet, h, Ne.symm h]
  | cons p rest ih =>
      by_cases hp : p.1 = k
      · subst hp
        simp [dictGet, dictSet, h, Ne.symm h]
      · by_cases hp' : p.1 = k'
        · simp [dictGet, dictSet, hp, hp', h, Ne.symm h]
        · simp [dictGet, dictSet, hp, hp', ih]

/-- POSIX `os.path.isabs p`: the path starts with a separator. -/
def isAbsPath (p : String) : Bool :=
  match p.data with
  | [] => false
  | c :: _ => c == '/'

/-- Python `p.lstrip(os.path.sep)`: drop every leading separator. -/
def stripLeadingSlashes (p : String) : String :=
  String.mk (p.data.dropWhile (fun c => c = '/'))

/-- Whether a path ends with the separator. -/
def endsWithSlash (p : String) : Bool :=
  match p.data.getLast? with
  | some c => c == '/'
  | none => false

/-- Python `s.lower()` (ASCII case folding suffices here). -/
def strLower (s : String) : String :=
  String.mk (s.data.map Char.toLower)

/-- POSIX `os.path.join a b` for two components. -/
def pyJoin (a b : String) : String :=
  if isAbsPath b then b
  else if a = "" then b
  else if endsWithSlash a then a ++ b
  else a ++ "/" ++ b

/-- The absolute-path rewrite performed at the top of
`NuleculeManager.__init__` (lines 51-60) for each of the three inputs:
absolute paths are re-rooted under the configured root after stripping
the leading separator; relative paths are left alone. -/
def resolvePath (root p : String) : String :=
  if isAbsPath p then pyJoin root (stripLeadingSlashes p) else p

/-- Modelled from the spec: the distinguished "global" section name from
`atomicapp.constants` (not under `src/`). -/
def GLOBAL_CONF : String := "general"

/-- Modelled from the spec: conventional answers filename
(`ANSWERS_FILE` in `atomicapp.constants`, not under `src/`). -/
def ANSWERS_FILE : String := "answers.conf"

/-- Modelled from the spec: generated sample-answers filename
(`ANSWERS_FILE_SAMPLE` in `atomicapp.constants`, not under `src/`). -/
def ANSWERS_FILE_SAMPLE : String := "answers.conf.sample"

/-- Modelled from the spec: generated runtime-answers filename
(`ANSWERS_RUNTIME_FILE` in `atomicapp.constants`, not under `src/`). -/
def ANSWERS_RUNTIME_FILE : String := "answers.conf.gen"

/-- Modelled from the spec: default namespace value
(`DEFAULT_NAMESPACE` in `atomicapp.constants`, not under `src/`). -/
def DEFAULT_NAMESPACE : String := "default"

/-- Modelled from the spec: namespace key
(`NAMESPACE_KEY` in `atomicapp.constants`, not under `src/`). -/
def NAMESPACE_KEY : String := "namespace"

/-- Modelled from the spec: provider key
(`PROVIDER_KEY` in `atomicapp.constants`, not under `src/`). -/
def PROVIDER_KEY : String := "provider"

/-- Modelled from the spec: the main Nulecule filename
(`MAIN_FILE` in `atomicapp.constants`, not under `src/`). -/
def MAIN_FILE : String := "Nulecule"

/-- Modelled from the spec: the construction-time default answers document
(`DEFAULT_ANSWERS` in `atomicapp.constants`, not under `src/`): a global
section carrying the default namespace ("global section always contains a
namespace value"). -/
def DEFAULT_ANSWERS : AnswersDoc :=
  [(GLOBAL_CONF, [(NAMESPACE_KEY, DEFAULT_NAMESPACE)])]

/-- The filesystem as the controller observes it: regular files whose
parsed answers content is known, plus directories. -/
structure FS where
  files : List (String × AnswersDoc)
  dirs : List String
deriving DecidableEq

/-- Python `os.path.isfile p`. -/
def FS.isfile (fs : FS) (p : String) : Bool :=
  (dictGet fs.files p).isSome

/-- Python `os.path.exists p` (false on the empty string, as in Python). -/
def FS.pathExists (fs : FS) (p : String) : Bool :=
  if p = "" then false else fs.isfile p || fs.dirs.contains p

/-- Modelled from the spec: `Utils.loadAnswers` (not under `src/`) parses
the answers file at `p`; a missing or unreadable file is a configuration
error (`none` here). -/
def FS.load (fs : FS) (p : String) : Option AnswersDoc :=
  dictGet fs.files p

/-- An empty filesystem. -/
def fsEmpty : FS := { files := [], dirs := [] }

/-- Decidable equality for exception-carrying results, so concrete
constructions can be evaluated by `decide`. -/
instance instDecEqExcept {ε α : Type} [DecidableEq ε] [DecidableEq α] :
    DecidableEq (Except ε α) := fun x y =>
  match x, y with
  | Except.ok a, Except.ok b =>
      if h : a = b then isTrue (by rw [h]) else isFalse (by simp [h])
  | Except.error a, Except.error b =>
      if h : a = b then isTrue (by rw [h]) else isFalse (by simp [h])
  | Except.ok _, Except.error _ => isFalse (by simp)
  | Except.error _, Except.ok _ => isFalse (by simp)

/-- Python exceptions the controller can raise. -/
inductive Err where
  /-- Python `NuleculeException` (configuration error: missing explicit answers
  file, sample file already present, unreadable answers file). -/
  | confError
  /-- Python `KeyError` (missing `general` section or missing environment value). -/
  | keyError
  /-- Python error raised by `os.path.join(None, MAIN_FILE)` at line 92
  when `app_path` was never established. -/
  | typeError
deriving DecidableEq

/-- Calls the controller makes on external collaborators, in order.
These record the persistent side effects and engine delegations. -/
inductive Effect where
  /-- Call `Utils.copy_dir(src, dst, update)`. -/
  | copyDir (src dst : String) (update : Bool)
  /-- Call `Nulecule.unpack(image, dst, ...)`: the image-unpack entry point. -/
  | unpackImage (image dst : String) (dryrun update : Bool)
  /-- Call `Nulecule.load_from_path(path, ...)`: the local-load entry point. -/
  | loadPath (path : String) (dryrun : Bool)
  /-- Call `nulecule.load_config(...)`. -/
  | loadConfig (ask skipAsking : Bool)
  /-- Call `nulecule.render(provider, dryrun)`. -/
  | render (provider : Option String) (dryrun : Bool)
  /-- Call `nulecule.run(provider, dryrun)`. -/
  | runApp (provider : Option String) (dryrun : Bool)
  /-- Call `nulecule.stop(provider, dryrun)`. -/
  | stopApp (provider : Option String) (dryrun : Bool)
  /-- Call `anymarkup.serialize_file(doc, path, ...)` via `_write_answers`. -/
  | writeFile (path : String) (doc : AnswersDoc)
deriving DecidableEq

/-- The mutable instance state of `NuleculeManager` that the claims are
about (`self.answers`, `self.cli_answers`, `self.answers_file`,
`self.app_path`, `self.image`). -/
structure MgrState where
  answers : AnswersDoc
  cli_answers : List (String × String)
  answers_file : Option String
  app_path : String
  image : Option String
deriving DecidableEq

/-- Outcome of a controller operation: the (possibly partially mutated)
instance state, the exception if one escaped, and the external calls made. -/
structure OpOutcome where
  st : MgrState
  err : Option Err
  effects : List Effect
deriving DecidableEq

/-- The value at key `k` of the global section of `a`, if both exist. -/
def globalKey (a : AnswersDoc) (k : String) : Option String :=
  match dictGet a GLOBAL_CONF with
  | some g => dictGet g k
  | none => none

/-- Last-occurrence lookup over the CLI answers list: the value the Python
loop `for k, v in self.cli_answers.iteritems(): ...` leaves for key `k`. -/
def cliVal (cli : List (String × String)) (k : String) : Option String :=
  match cli with
  | [] => none
  | p :: t =>
      match cliVal t k with
      | some v => some v
      | none => if p.1 = k then some p.2 else none

/-- The CLI merge loop body of `_process_answers` (lines 313-315): each
pair is assigned into the global section in turn. -/
def cliFold (g : ConfSect) (cli : List (String × String)) : ConfSect :=
  cli.foldl (fun acc p => dictSet acc p.1 p.2) g

/-- Lines 312-315 of `_process_answers`: merge the CLI answers into the
global section of `a`. Skipped when the CLI dict is empty (falsy);
`self.answers[GLOBAL_CONF]` raises `KeyError` when the section is absent. -/
def mergeCli (a : AnswersDoc) (cli : List (String × String)) :
    AnswersDoc × Option Err :=
  if cli.isEmpty then (a, none)
  else
    match dictGet a GLOBAL_CONF with
    | some g => (dictSet a GLOBAL_CONF (cliFold g cli), none)
    | none => (a, some Err.keyError)

/-- Embeds `NuleculeManager._process_answers` (lines 286-315): probe the app dir
for a conventional answers file if none is known, load the answers file if
one is known (fully replacing the document), then merge CLI answers into
the global section. -/
def process_answers (fs : FS) (s : MgrState) : MgrState × Option Err :=
  let s :=
    if s.answers_file.isNone then
      let f := pyJoin s.app_path ANSWERS_FILE
      if fs.isfile f then { s with answers_file := some f } else s
    else s
  match s.answers_file with
  | some f =>
      match fs.load f with
      | some doc =>
          let (a, e) := mergeCli doc s.cli_answers
          ({ s with answers := a }, e)
      | none => (s, some Err.confError)
  | none =>
      let (a, e) := mergeCli s.answers s.cli_answers
      ({ s with answers := a }, e)

/-- Embeds `NuleculeManager._get_runtime_answers` (lines 334-354), with
the aliasing introduced by the assignment of `config.get(GLOBAL_CONF)` (or
an empty dict) into the copied document: after the deep copy, the assignment makes `_config`'s global
section the very dict object of the input whenever the input has a
non-empty global section, so the subsequent namespace default (and any
explicit provider) is also written into the input. Returns
`(result, input after the call)`. -/
def get_runtime_answers (config : AnswersDoc) (cli_provider : Option String) :
    AnswersDoc × AnswersDoc :=
  let gOrig := dictGet config GLOBAL_CONF
  let shared : Bool :=
    match gOrig with
    | some g => !g.isEmpty
    | none => false
  let g0 : ConfSect := match gOrig with | some g => g | none => []
  let nsv : String :=
    match dictGet g0 NAMESPACE_KEY with
    | some v => if v = "" then DEFAULT_NAMESPACE else v
    | none => DEFAULT_NAMESPACE
  let g1 := dictSet g0 NAMESPACE_KEY nsv
  let g2 :=
    match cli_provider with
    | some p => if p = "" then g1 else dictSet g1 PROVIDER_KEY p
    | none => g1
  let result := dictSet config GLOBAL_CONF g2
  let inputAfter := if shared then dictSet config GLOBAL_CONF g2 else config
  (result, inputAfter)

/-- The execution environment: the configured root (`Utils.getRoot`), the
filesystem, the fresh temporary directory `tempfile.mkdtemp` would return,
the cache-directory derivation (`Utils.getNewAppCacheDir`), and the
OpenShift detection data (`Utils.running_on_openshift`, `os.environ`,
`Utils.get_openshift_api_endpoint_from_env`) — all external collaborators
of `NuleculeManager`. -/
structure Env where
  root : String
  fs : FS
  tmpdir : String
  cacheDir : String → String
  onOpenshift : Bool
  token : Option String
  podNamespace : Option String
  apiEndpoint : String

/-- Lines 105-110 of `__init__`: the OpenShift platform override. The
global section is indexed directly (`KeyError` when absent), the two
environment variables are read with `os.environ[...]` (`KeyError` when
absent); mutation is partial on failure, as in Python. -/
def platform_override (env : Env) (a : AnswersDoc) :
    AnswersDoc × Option Err :=
  match dictGet a GLOBAL_CONF with
  | none => (a, some Err.keyError)
  | some g =>
      let g1 := dictSet g "provider" "openshift"
      let a1 := dictSet a GLOBAL_CONF g1
      match env.token with
      | none => (a1, some Err.keyError)
      | some tok =>
          let g2 := dictSet g1 "accesstoken" tok
          let a2 := dictSet a GLOBAL_CONF g2
          match env.podNamespace with
          | none => (a2, some Err.keyError)
          | some ns =>
              let g3 := dictSet g2 "namespace" ns
              let g4 := dictSet g3 "providerapi" env.apiEndpoint
              (dictSet a GLOBAL_CONF g4, none)

/-- Python truthiness of an optional string (`None` and `""` are falsy). -/
def optTruthy (o : Option String) : Bool :=
  match o with
  | none => false
  | some s => !(s = "")

/-- The destination actually in force after the absolute-path rewrite and
the `'none'` sentinel substitution of `__init__` (lines 55-67): a truthy
destination equal (case-insensitively) to `"none"` is replaced by a fresh
temporary directory. -/
def effDest (env : Env) (destination : Option String) : Option String :=
  match destination.map (resolvePath env.root) with
  | some d =>
      if d ≠ "" ∧ strLower d = "none" then some env.tmpdir else some d
  | none => none

/-- Lines 62-92 of `__init__`: decide image vs local path, perform the
copy to a truthy destination, and settle the app path. Returns
`(image, app path if any, copy effects)`. -/
def resolveLoc (env : Env) (app_spec : String) (destination : Option String) :
    Option String × Option String × List Effect :=
  let spec := resolvePath env.root app_spec
  let dst := effDest env destination
  -- Lines 69-73: image vs local path.
  let loc : Option String × Option String :=
    if env.fs.pathExists spec then (none, some spec) else (some spec, none)
  let image := loc.1
  -- Lines 75-79: copy a local app to the destination if both are truthy.
  let copied : Option String × List Effect :=
    match loc.2, dst with
    | some p, some d =>
        if d = "" then (some p, []) else (some d, [Effect.copyDir p d true])
    | ap, _ => (ap, [])
  -- Lines 81-86: an image needs a destination or a cache directory.
  let app_path : Option String :=
    match image with
    | some i =>
        if i = "" then copied.1
        else
          match dst with
          | some d => if d = "" then some (env.cacheDir i) else some d
          | none => some (env.cacheDir i)
    | none => copied.1
  (image, app_path, copied.2)

/-- Lines 94-99 of `__init__`: an explicit (truthy) answers file must
exist on disk, otherwise a configuration error is raised. -/
def checkAnswersFile (env : Env) (af0 : Option String) :
    Except Err (Option String) :=
  match af0 with
  | some af =>
      if af = "" then Except.ok none
      else if env.fs.isfile af then Except.ok (some af)
      else Except.error Err.confError
  | none => Except.ok none

/-- Lines 100-110 of `__init__`: the initial `_process_answers` call
followed by the OpenShift platform override. -/
def initAnswers (env : Env) (s0 : MgrState) : Except Err MgrState :=
  let (s1, e1) := process_answers env.fs s0
  match e1 with
  | some e => Except.error e
  | none =>
      if env.onOpenshift then
        let (a2, e2) := platform_override env s1.answers
        match e2 with
        | some e => Except.error e
        | none => Except.ok { s1 with answers := a2 }
      else Except.ok s1

/-- Embeds `NuleculeManager.__init__` (lines 32-110): path resolution,
source-kind determination, optional copy to a destination, explicit
answers-file check, initial answer processing, and the OpenShift
override. Returns the constructed state and the copy effects, or the
exception that escaped. (Copy effects preceding a later construction
failure are not tracked; no claim depends on them.) -/
def initMgr (env : Env) (app_spec : String) (destination : Option String)
    (cli_answers : List (String × String)) (answers_file : Option String) :
    Except Err (MgrState × List Effect) :=
  let r := resolveLoc env app_spec destination
  match r.2.1 with
  | none => Except.error Err.typeError
  | some ap =>
      match checkAnswersFile env (answers_file.map (resolvePath env.root)) with
      | Except.error e => Except.error e
      | Except.ok afo =>
          match initAnswers env
              { answers := DEFAULT_ANSWERS, cli_answers := cli_answers,
                answers_file := afo, app_path := ap, image := r.1 } with
          | Except.error e => Except.error e
          | Except.ok s1 => Except.ok (s1, r.2.2)

/-- Embeds `NuleculeManager.unpack` (lines 112-139) as the engine call it makes:
the image-unpack entry point when `self.image` is truthy, otherwise the
local-load entry point. -/
def unpackEffect (s : MgrState) (dryrun update : Bool) : Effect :=
  match s.image with
  | some i =>
      if i = "" then Effect.loadPath s.app_path dryrun
      else Effect.unpackImage i s.app_path dryrun update
  | none => Effect.loadPath s.app_path dryrun

/-- Lines 240-242 of `run`: auto-select the sole available provider when
the caller supplied none (`cli_provider is None`), writing it into the
global section of the current answers (`KeyError` when absent). -/
def autoSelect (providers : List String) (cli_provider : Option String)
    (a : AnswersDoc) : AnswersDoc × Option Err :=
  match cli_provider, providers with
  | none, [p] =>
      match dictGet a GLOBAL_CONF with
      | some g => (dictSet a GLOBAL_CONF (dictSet g PROVIDER_KEY p), none)
      | none => (a, some Err.keyError)
  | _, _ => (a, none)

/-- Embeds lines 240-254 of `NuleculeManager.run` (the part after the
post-unpack answer re-resolution); `run` below dispatches into it.
`providers` models the result
of `Utils.getSupportedProviders(self.app_path)` (external collaborator).

Modelled from the spec: the descriptor engine's `loadFromPath` /
`unpackFromImage` return a bundle handle whose resolved configuration is
the very answers object passed in (Python reference), and
`bundle.loadConfig` resolves parameters into that configuration without
altering the keys modelled here; parameter resolution itself is out of
scope ("bundle.loadConfig(config, ask?, skipAsking?) -> void").

The embedding therefore tracks the alias between `self.answers` and
`self.nulecule.config`: the re-resolution of answers (lines 235-236)
rebinds `self.answers` to a freshly loaded document exactly when it
discovers an answers file, breaking the alias, while in-place CLI merges
and the provider auto-selection stay visible through the alias. -/
def runTail (s1 : MgrState) (nul0 : AnswersDoc) (aliased : Bool)
    (providers : List String) (cli_provider answers_output : Option String)
    (ask dryrun : Bool) (unpackEff : Effect) : OpOutcome :=
  let (a2, e2) := autoSelect providers cli_provider s1.answers
  match e2 with
  | some e =>
      { st := { s1 with answers := a2 }, err := some e,
        effects := [unpackEff] }
  | none =>
      let nul1 := if aliased then a2 else nul0
      -- Lines 247-248: runtime answers; the second component is the
      -- bundle config after the aliasing mutation.
      let (rt, nul2) := get_runtime_answers nul1 cli_provider
      let sFinal := { s1 with answers := if aliased then nul2 else a2 }
      let baseEffs :=
        [unpackEff, Effect.loadConfig ask false,
         Effect.render cli_provider dryrun,
         Effect.runApp cli_provider dryrun,
         Effect.writeFile (pyJoin s1.app_path ANSWERS_RUNTIME_FILE) rt]
      let effs :=
        match answers_output with
        | some ao =>
            if ao = "" then baseEffs
            else baseEffs ++ [Effect.writeFile ao rt]
        | none => baseEffs
      { st := sFinal, err := none, effects := effs }

/-- Embeds `NuleculeManager.run` (lines 206-254): unpack, re-process
answers when none were found before (lines 235-236), then the tail
(`runTail`). -/
def run (fs : FS) (providers : List String) (s : MgrState)
    (cli_provider : Option String) (answers_output : Option String)
    (ask : Bool) (dryrun : Bool) : OpOutcome :=
  let unpackEff := unpackEffect s dryrun false
  -- Lines 235-236: re-process answers when none were found before.
  let step : (MgrState × AnswersDoc × Bool) × Option Err :=
    if s.answers_file.isNone then
      let (s1, e1) := process_answers fs s
      -- A rebind happened iff the probe discovered a file.
      if s1.answers_file.isSome then ((s1, s.answers, false), e1)
      else ((s1, s1.answers, true), e1)
    else ((s, s.answers, true), none)
  match step with
  | ((s1, _, _), some e) => { st := s1, err := some e, effects := [unpackEff] }
  | ((s1, nul0, aliased), none) =>
      runTail s1 nul0 aliased providers cli_provider answers_output
        ask dryrun unpackEff

/-- Embeds `NuleculeManager.stop` (lines 256-273): force the answers-file path to
the runtime-answers file inside the app path, re-process answers from it,
then reload the bundle from the local path and render/stop. -/
def stop (fs : FS) (s : MgrState) (cli_provider : Option String)
    (dryrun : Bool) : OpOutcome :=
  let af := pyJoin s.app_path ANSWERS_RUNTIME_FILE
  let s1 := { s with answers_file := some af }
  let (s2, e) := process_answers fs s1
  match e with
  | some err => { st := s2, err := some err, effects := [] }
  | none =>
      { st := s2, err := none,
        effects :=
          [Effect.loadPath s.app_path dryrun,
           Effect.loadConfig false false,
           Effect.render cli_provider dryrun,
           Effect.stopApp cli_provider dryrun] }

/-- Embeds `NuleculeManager.genanswers` (lines 141-170): refuse to overwrite an
existing conventional answers file in the working directory, else unpack,
load config without prompting, derive runtime answers (no explicit
provider) and write them to the working directory. -/
def genanswers (fs : FS) (cwd : String) (s : MgrState) (dryrun : Bool) :
    OpOutcome :=
  let f := pyJoin cwd ANSWERS_FILE
  if fs.pathExists f then
    { st := s, err := some Err.confError, effects := [] }
  else
    let (rt, nul2) := get_runtime_answers s.answers none
    { st := { s with answers := nul2 }, err := none,
      effects :=
        [unpackEffect s dryrun false, Effect.loadConfig false true,
         Effect.writeFile f rt] }

/-- Embeds `NuleculeManager.install` (lines 172-204): unpack, load config without
prompting, derive runtime answers and write the sample-answers file inside
the app path. -/
def install (_fs : FS) (s : MgrState) (update dryrun : Bool) : OpOutcome :=
  let (rt, nul2) := get_runtime_answers s.answers none
  { st := { s with answers := nul2 }, err := none,
    effects :=
      [unpackEffect s dryrun update, Effect.loadConfig false true,
       Effect.writeFile (pyJoin s.app_path ANSWERS_FILE_SAMPLE) rt] }

/-- One step of scanning effects for the last write to `path`. -/
def writtenStep (path : String) (acc : Option AnswersDoc) (e : Effect) :
    Option AnswersDoc :=
  match e with
  | Effect.writeFile p d2 => if p = path then some d2 else acc
  | _ => acc

/-- The content last written to `path` among an outcome's effects. -/
def writtenDoc (o : OpOutcome) (path : String) : Option AnswersDoc :=
  o.effects.foldl (writtenStep path) none

/-- Whether an effect is a file write. -/
def isWriteEffect : Effect → Bool
  | Effect.writeFile _ _ => true
  | _ => false

/-- The value of key `k` in the global section of the document last
written to `path`, if a document was written there. -/
def writtenKey (o : OpOutcome) (path k : String) : Option (Option String) :=
  (writtenDoc o path).map (fun rt => globalKey rt k)

@[simp] theorem globalKey_dictSet_global (a : AnswersDoc) (g : ConfSect)
    (k : String) :
    globalKey (dictSet a GLOBAL_CONF g) k = dictGet g k := by
  simp [globalKey]

/-- A concrete configuration document whose global section is present and
non-empty but lacks a namespace key. -/
def c3doc : AnswersDoc := [("general", [("provider", "docker")])]

/-- A state as left by a construction that resolved an answers file. -/
def c2s : MgrState :=
  { answers := DEFAULT_ANSWERS, cli_answers := [],
    answers_file := some "/answers.conf", app_path := "/app", image := none }

/-- The runtime answers derived from the default document. -/
def c2rt : AnswersDoc := [(GLOBAL_CONF, [(NAMESPACE_KEY, DEFAULT_NAMESPACE)])]

/-- A working directory already holding the conventional answers file. -/
def c8fs : FS := { files := [("/work/answers.conf", [])], dirs := [] }

/-- An arbitrary constructed state for the C8 witness. -/
def c8s : MgrState :=
  { answers := DEFAULT_ANSWERS, cli_answers := [], answers_file := none,
    app_path := "/app", image := none }

/-- An app directory holding an answers file without a global section. -/
def c9fs : FS :=
  { files := [(pyJoin "/app" ANSWERS_FILE, [("other", [("x", "y")])])],
    dirs := ["/app"] }

/-- A freshly constructed state probing that directory. -/
def c9s : MgrState :=
  { answers := DEFAULT_ANSWERS, cli_answers := [], answers_file := none,
    app_path := "/app", image := none }

/-- A runtime-answers document persisted by a prior run. -/
def c7doc : AnswersDoc :=
  [("general", [("namespace", "ns7"), ("provider", "openshift")])]

/-- A filesystem holding that runtime-answers file. -/
def c7fs : FS :=
  { files := [(pyJoin "/app" ANSWERS_RUNTIME_FILE, c7doc)], dirs := ["/app"] }

/-- A state with a stale earlier answers-file resolution. -/
def c7s : MgrState :=
  { answers := DEFAULT_ANSWERS, cli_answers := [],
    answers_file := some "/other/answers.conf", app_path := "/app",
    image := none }

/-- A runtime-answers document for the C10 witness. -/
def c10doc : AnswersDoc := [("general", [("provider", "k8s")])]

/-- A filesystem holding the runtime-answers file for the C10 witness. -/
def c10fs : FS :=
  { files := [(pyJoin "/app" ANSWERS_RUNTIME_FILE, c10doc)],
    dirs := ["/app"] }

/-- A pre-stop state for the C10 witness. -/
def c10s : MgrState :=
  { answers := DEFAULT_ANSWERS, cli_answers := [], answers_file := none,
    app_path := "/app", image := none }

/-- A post-stop pinned state for the C10 witness. -/
def c10s2 : MgrState :=
  { answers := DEFAULT_ANSWERS, cli_answers := [],
    answers_file := some (pyJoin "/app" ANSWERS_RUNTIME_FILE),
    app_path := "/app", image := none }

/-- An environment with root `/host`, a local bundle at `/host/src` and
no OpenShift detection, for the C4 witness. -/
def c4env : Env :=
  { root := "/host", fs := { files := [], dirs := ["/host/src"] },
    tmpdir := "/tmp/c4", cacheDir := fun i => pyJoin "/var/cache" i,
    onOpenshift := false, token := none, podNamespace := none,
    apiEndpoint := "" }

/-- The state the C4 witness construction produces. -/
def c4state : MgrState :=
  { answers := DEFAULT_ANSWERS, cli_answers := [], answers_file := none,
    app_path := "/host/dst", image := none }

/-- The copy effects the C4 witness construction produces. -/
def c4effs : List Effect :=
  [Effect.copyDir "/host/src" "/host/dst" true]

/-- A filesystem with no answers file, only the app directory. -/
def c1fs : FS := { files := [], dirs := ["/app"] }

/-- An OpenShift-detected environment for the C1 counterexample. -/
def c1env : Env :=
  { root := "/", fs := c1fs, tmpdir := "/tmp/a",
    cacheDir := fun i => pyJoin "/var/cache" i, onOpenshift := true,
    token := some "tok123", podNamespace := some "podns",
    apiEndpoint := "apiurl" }

/-- The state the C1 counterexample construction produces: platform
overrides applied on top of the CLI-merged defaults. -/
def c1state : MgrState :=
  { answers :=
      [("general",
        [("namespace", "podns"), ("provider", "openshift"),
         ("accesstoken", "tok123"), ("providerapi", "apiurl")])],
    cli_answers := [("provider", "docker")], answers_file := none,
    app_path := "/app", image := none }

/-- A filesystem holding an explicit answers file with a global section
and a component section, for the C1 witness. -/
def c1wfs : FS :=
  { files :=
      [("/af",
        [("general", [("provider", "file-prov"), ("namespace", "file-ns")]),
         ("comp1", [("a", "b")])])],
    dirs := [] }

/-- A state with that answers file resolved and a CLI provider. -/
def c1ws : MgrState :=
  { answers := DEFAULT_ANSWERS, cli_answers := [("provider", "docker")],
    answers_file := some "/af", app_path := "/app", image := none }

/-- An OpenShift-detected environment for the C1 witness. -/
def c1wenv : Env :=
  { root := "/", fs := c1wfs, tmpdir := "/t", cacheDir := fun i => i,
    onOpenshift := true, token := some "tok", podNamespace := some "podns",
    apiEndpoint := "api" }

/-- An app directory with a bundle-embedded answers file (it lacks a
provider), as `run` would see it after unpack. -/
def c6fs : FS :=
  { files :=
      [(pyJoin "/app" ANSWERS_FILE, [("general", [("namespace", "ns1")])])],
    dirs := ["/app"] }

/-- A constructed state that found no answers file before `run`. -/
def c6s : MgrState :=
  { answers := DEFAULT_ANSWERS, cli_answers := [], answers_file := none,
    app_path := "/app", image := none }

/-- A state with an already-resolved answers file, for the C6 witness. -/
def c6ws : MgrState :=
  { answers := DEFAULT_ANSWERS, cli_answers := [],
    answers_file := some "/af", app_path := "/app", image := none }

theorem dictSet_ne_nil {α : Type} (d : List (String × α)) (k : String) (v : α) :
    dictSet d k v ≠ [] := by
  cases d with
  | nil => simp [dictSet]
  | cons p rest =>
      by_cases h : p.1 = k <;> simp [dictSet, h]

theorem dictGet_cliFold (cli : List (String × String)) (g : ConfSect)
    (k : String) :
    dictGet (cliFold g cli) k =
      match cliVal cli k with
      | some v => some v
      | none => dictGet g k := by
  induction cli generalizing g with
  | nil => simp [cliFold, cliVal]
  | cons p t ih =>
      show dictGet (cliFold (dictSet g p.1 p.2) t) k = _
      rw [ih]
      by_cases hp : p.1 = k
      · subst hp
        cases h : cliVal t p.1 <;> simp [cliVal, h]
      · have hne : k ≠ p.1 := fun hh => hp hh.symm
        cases h : cliVal t k <;>
          simp [cliVal, h, hp, dictGet_dictSet_ne g p.1 k p.2 hne]

theorem FS.load_of_isfile (fs : FS) (p : String) (h : fs.isfile p = true) :
    ∃ doc, fs.load p = some doc := by
  unfold FS.isfile at h
  unfold FS.load
  cases hl : dictGet fs.files p with
  | none => rw [hl] at h; simp at h
  | some doc => exact ⟨doc, rfl⟩

theorem mergeCli_nil (a : AnswersDoc) : mergeCli a [] = (a, none) := by
  simp [mergeCli]

theorem mergeCli_ok (a : AnswersDoc) (cli : List (String × String))
    (g : ConfSect) (hg : dictGet a GLOBAL_CONF = some g) :
    (mergeCli a cli).2 = none ∧
    (∀ k, globalKey (mergeCli a cli).1 k =
        match cliVal cli k with
        | some v => some v
        | none => dictGet g k) ∧
    (∀ sec, sec ≠ GLOBAL_CONF →
        dictGet (mergeCli a cli).1 sec = dictGet a sec) := by
  by_cases hc : cli.isEmpty
  · have hnil : cli = [] := by
      cases cli with
      | nil => rfl
      | cons p t => simp [List.isEmpty] at hc
    subst hnil
    refine ⟨by simp [mergeCli], fun k => ?_, fun sec _ => by simp [mergeCli]⟩
    simp [mergeCli, cliVal, globalKey, hg]
  · refine ⟨by simp [mergeCli, hc, hg], fun k => ?_, fun sec hsec => ?_⟩
    · simp [mergeCli, hc, hg, dictGet_cliFold]
    · have hne := dictGet_dictSet_ne a GLOBAL_CONF sec (cliFold g cli) hsec
      simp [mergeCli, hc, hg, hne]

theorem mergeCli_err_cases (a : AnswersDoc) (cli : List (String × String))
    (h : (mergeCli a cli).2 = none) :
    cli = [] ∨ ∃ g, dictGet a GLOBAL_CONF = some g := by
  by_cases hc : cli.isEmpty
  · left
    cases cli with
    | nil => rfl
    | cons p t => simp [List.isEmpty] at hc
  · right
    cases hg : dictGet a GLOBAL_CONF with
    | some g => exact ⟨g, rfl⟩
    | none => simp [mergeCli, hc, hg] at h

theorem process_answers_of_some (fs : FS) (s : MgrState) (f : String)
    (doc : AnswersDoc) (h : s.answers_file = some f)
    (hload : fs.load f = some doc) :
    process_answers fs s =
      ({ s with answers := (mergeCli doc s.cli_answers).1 },
       (mergeCli doc s.cli_answers).2) := by
  unfold process_answers
  rcases hm : mergeCli doc s.cli_answers with ⟨a, e⟩
  simp [h, hload, hm]

theorem process_answers_of_some_missing (fs : FS) (s : MgrState) (f : String)
    (h : s.answers_file = some f) (hload : fs.load f = none) :
    process_answers fs s = (s, some Err.confError) := by
  unfold process_answers
  simp [h, hload]

theorem process_answers_of_none_nofile (fs : FS) (s : MgrState)
    (h : s.answers_file = none)
    (hf : fs.isfile (pyJoin s.app_path ANSWERS_FILE) = false) :
    process_answers fs s =
      ({ s with answers := (mergeCli s.answers s.cli_answers).1 },
       (mergeCli s.answers s.cli_answers).2) := by
  unfold process_answers
  rcases hm : mergeCli s.answers s.cli_answers with ⟨a, e⟩
  simp [h, hf, hm]

theorem process_answers_of_none_file (fs : FS) (s : MgrState)
    (doc : AnswersDoc) (h : s.answers_file = none)
    (hload : fs.load (pyJoin s.app_path ANSWERS_FILE) = some doc) :
    process_answers fs s =
      ({ s with
          answers_file := some (pyJoin s.app_path ANSWERS_FILE),
          answers := (mergeCli doc s.cli_answers).1 },
       (mergeCli doc s.cli_answers).2) := by
  have hf : fs.isfile (pyJoin s.app_path ANSWERS_FILE) = true := by
    unfold FS.isfile
    unfold FS.load at hload
    simp [hload]
  unfold process_answers
  rcases hm : mergeCli doc s.cli_answers with ⟨a, e⟩
  simp [h, hf, hload, hm]

theorem process_answers_frame (fs : FS) (s : MgrState) :
    (process_answers fs s).1.app_path = s.app_path ∧
    (process_answers fs s).1.image = s.image ∧
    (process_answers fs s).1.cli_answers = s.cli_answers := by
  unfold process_answers
  rcases hof : s.answers_file with _ | f
  · by_cases hf : fs.isfile (pyJoin s.app_path ANSWERS_FILE)
    · rcases FS.load_of_isfile fs _ hf with ⟨doc, hload⟩
      rcases hm : mergeCli doc s.cli_answers with ⟨a, e⟩
      simp [hof, hf, hload, hm]
    · rcases hm : mergeCli s.answers s.cli_answers with ⟨a, e⟩
      simp [hof, hf, hm]
  · cases hload : fs.load f with
    | none => simp [hof, hload]
    | some doc =>
        rcases hm : mergeCli doc s.cli_answers with ⟨a, e⟩
        simp [hof, hload, hm]

theorem get_runtime_answers_global_isSome (config : AnswersDoc)
    (cp : Option String) :
    (dictGet (get_runtime_answers config cp).1 GLOBAL_CONF).isSome = true := by
  unfold get_runtime_answers
  simp

theorem get_runtime_answers_namespace_isSome (config : AnswersDoc)
    (cp : Option String) :
    (globalKey (get_runtime_answers config cp).1 NAMESPACE_KEY).isSome
      = true := by
  unfold get_runtime_answers
  cases cp with
  | none => simp
  | some p =>
      by_cases hp : p = ""
      · simp [hp]
      · simp [hp, dictGet_dictSet_ne _ PROVIDER_KEY NAMESPACE_KEY _
          (show NAMESPACE_KEY ≠ PROVIDER_KEY by decide)]

theorem get_runtime_answers_provider_of_none (config : AnswersDoc)
    (g : ConfSect) (hg : dictGet config GLOBAL_CONF = some g) :
    globalKey (get_runtime_answers config none).1 PROVIDER_KEY =
      dictGet g PROVIDER_KEY := by
  unfold get_runtime_answers
  simp [hg, dictGet_dictSet_ne _ NAMESPACE_KEY PROVIDER_KEY _
    (show PROVIDER_KEY ≠ NAMESPACE_KEY by decide)]

/-- C5: every absolute-path input among source specifier, destination and
answers-file path is rewritten by `__init__` to the configured root
joined with the path after stripping its leading separator; resolving
the same input twice yields identical output; relative inputs are left
unrewritten. All three inputs go through the same `resolvePath` rewrite
(lines 51-60). -/
theorem c5_path_resolution (root p : String) :
    (isAbsPath p = true →
        resolvePath root p = pyJoin root (stripLeadingSlashes p)) ∧
    resolvePath root p = resolvePath root p ∧
    (isAbsPath p = false → resolvePath root p = p) := by
  refine ⟨fun h => ?_, rfl, fun h => ?_⟩ <;> simp [resolvePath, h]

/-- Witness for C5 at concrete inputs. -/
theorem c5_path_resolution_witness :
    resolvePath "/host" "/var/lib/app" =
      pyJoin "/host" (stripLeadingSlashes "/var/lib/app") ∧
    resolvePath "/host" "rel/app" = "rel/app" :=
  ⟨(c5_path_resolution "/host" "/var/lib/app").1 (by decide),
   (c5_path_resolution "/host" "rel/app").2.2 (by decide)⟩

/-- C3 (code bug): `_get_runtime_answers` mutates its input document.
With this config and no explicit provider, the call writes the namespace
default into the input's own global section through the alias created at
line 347, so the input after the call differs from the input before it
(the deep copy at line 346 shows non-mutation was the intent). -/
theorem c3_input_mutated :
    (get_runtime_answers c3doc none).2 ≠ c3doc ∧
    (get_runtime_answers c3doc none).2 =
      [("general", [("provider", "docker"), ("namespace", "default")])] := by
  decide

/-- C2 (code bug): with dryrun set, `run` still writes the runtime-answers
file, `install` still writes the sample-answers file, and `genanswers`
still writes the answers file in the working directory — `_write_answers`
calls `anymarkup.serialize_file` unconditionally (lines 317-332), with no
dryrun guard anywhere on the write path. -/
theorem c2_dryrun_still_writes :
    writtenDoc (run fsEmpty [] c2s none none false true)
        (pyJoin "/app" ANSWERS_RUNTIME_FILE) = some c2rt ∧
    writtenDoc (install fsEmpty c2s false true)
        (pyJoin "/app" ANSWERS_FILE_SAMPLE) = some c2rt ∧
    writtenDoc (genanswers fsEmpty "/work" c2s true)
        (pyJoin "/work" ANSWERS_FILE) = some c2rt := by
  decide

/-- C8: when the conventional answers file already exists in the current
working directory, `genanswers` fails with a configuration error before
unpacking: no external call is made (in particular no unpack and no
write) and the state is untouched, so the existing file's contents are
unchanged. -/
theorem c8_genanswers_conflict (fs : FS) (cwd : String) (s : MgrState)
    (d : Bool) (h : fs.pathExists (pyJoin cwd ANSWERS_FILE) = true) :
    (genanswers fs cwd s d).err = some Err.confError ∧
    (genanswers fs cwd s d).effects = [] ∧
    (genanswers fs cwd s d).st = s := by
  simp [genanswers, h]

/-- Witness for C8. -/
theorem c8_genanswers_conflict_witness :
    (genanswers c8fs "/work" c8s false).err = some Err.confError ∧
    (genanswers c8fs "/work" c8s false).effects = [] ∧
    (genanswers c8fs "/work" c8s false).st = c8s :=
  c8_genanswers_conflict c8fs "/work" c8s false (by decide)

/-- C9 counterexample: after the answers-file load step the invariant is
NOT re-established — loading a file whose document lacks a global section
leaves the controller's answers document without one (hence also without
a namespace value), with no error raised. -/
theorem c9_counterexample :
    (process_answers c9fs c9s).2 = none ∧
    dictGet (process_answers c9fs c9s).1.answers GLOBAL_CONF = none := by
  decide

/-- C9 (amended): the global-section/namespace invariant holds for the
construction-time default document and for every document produced by
`_get_runtime_answers`; it is not re-established by the answers-file
load or CLI-merge steps. -/
theorem c9_invariant_amended :
    globalKey DEFAULT_ANSWERS NAMESPACE_KEY = some DEFAULT_NAMESPACE ∧
    ∀ (cfg : AnswersDoc) (cp : Option String),
      (dictGet (get_runtime_answers cfg cp).1 GLOBAL_CONF).isSome = true ∧
      (globalKey (get_runtime_answers cfg cp).1 NAMESPACE_KEY).isSome
        = true :=
  ⟨by decide, fun cfg cp =>
    ⟨get_runtime_answers_global_isSome cfg cp,
     get_runtime_answers_namespace_isSome cfg cp⟩⟩

theorem process_answers_keeps_some (fs : FS) (s : MgrState) (f : String)
    (h : s.answers_file = some f) :
    (process_answers fs s).1.answers_file = some f := by
  cases hload : fs.load f with
  | some doc =>
      rw [process_answers_of_some fs s f doc h hload]
      exact h
  | none =>
      rw [process_answers_of_some_missing fs s f h hload]
      exact h

/-- C7: `stop` forces the answers-file path to the conventional
runtime-answers filename inside the app path regardless of any earlier
resolution, reloads the answers from that file — so the run's persisted
provider and namespace are reused for every key the CLI did not supply —
and reloads the bundle via the local-load entry point, never via the
image-unpack entry point. -/
theorem c7_stop_reloads_runtime_answers (fs : FS) (s : MgrState)
    (cp : Option String) (d : Bool) (doc : AnswersDoc)
    (hload : fs.load (pyJoin s.app_path ANSWERS_RUNTIME_FILE) = some doc)
    (hmerge : (mergeCli doc s.cli_answers).2 = none) :
    (stop fs s cp d).st.answers_file =
      some (pyJoin s.app_path ANSWERS_RUNTIME_FILE) ∧
    (stop fs s cp d).err = none ∧
    (stop fs s cp d).st.answers = (mergeCli doc s.cli_answers).1 ∧
    (∀ k, cliVal s.cli_answers k = none →
        globalKey (stop fs s cp d).st.answers k = globalKey doc k) ∧
    Effect.loadPath s.app_path d ∈ (stop fs s cp d).effects ∧
    (∀ i pth dr up,
        Effect.unpackImage i pth dr up ∉ (stop fs s cp d).effects) := by
  have hpa := process_answers_of_some fs
      { s with answers_file := some (pyJoin s.app_path ANSWERS_RUNTIME_FILE) }
      (pyJoin s.app_path ANSWERS_RUNTIME_FILE) doc rfl hload
  have hstop : stop fs s cp d =
      { st := { s with
            answers_file := some (pyJoin s.app_path ANSWERS_RUNTIME_FILE),
            answers := (mergeCli doc s.cli_answers).1 },
        err := none,
        effects :=
          [Effect.loadPath s.app_path d, Effect.loadConfig false false,
           Effect.render cp d, Effect.stopApp cp d] } := by
    simp [stop, hpa, hmerge]
  refine ⟨by rw [hstop], by rw [hstop], by rw [hstop], ?_, ?_, ?_⟩
  · intro k hk
    have ha : (stop fs s cp d).st.answers = (mergeCli doc s.cli_answers).1 :=
      by rw [hstop]
    rw [ha]
    rcases mergeCli_err_cases doc s.cli_answers hmerge with hnil | ⟨g, hg⟩
    · simp [hnil, mergeCli_nil]
    · have hm := (mergeCli_ok doc s.cli_answers g hg).2.1 k
      rw [hk] at hm
      dsimp only at hm
      rw [hm]
      simp [globalKey, hg]
  · rw [hstop]; simp
  · intro i pth dr up
    rw [hstop]
    simp

/-- Witness for C7. -/
theorem c7_stop_reloads_runtime_answers_witness :
    (stop c7fs c7s none false).st.answers_file =
      some (pyJoin "/app" ANSWERS_RUNTIME_FILE) ∧
    globalKey (stop c7fs c7s none false).st.answers "provider" =
      some "openshift" ∧
    globalKey (stop c7fs c7s none false).st.answers "namespace" =
      some "ns7" :=
  ⟨(c7_stop_reloads_runtime_answers c7fs c7s none false c7doc (by decide)
      (by decide)).1,
   by
     rw [(c7_stop_reloads_runtime_answers c7fs c7s none false c7doc
        (by decide) (by decide)).2.2.2.1 "provider" (by decide)]
     decide,
   by
     rw [(c7_stop_reloads_runtime_answers c7fs c7s none false c7doc
        (by decide) (by decide)).2.2.2.1 "namespace" (by decide)]
     decide⟩

/-- C10: the first statement of `stop` permanently pins the answers-file
path to the runtime-answers file inside the app path: the pin holds in
every outcome of `stop` (success and failure alike); any subsequent
`_process_answers` with the pin in place keeps it and loads exactly that
file (no probing for the conventional answers file); and a subsequent
`run` performs no answer resolution against the filesystem at all — its
outcome equals the outcome over an empty filesystem, so it uses the
answers the pin made `stop` load rather than any construction-time
answers file. -/
theorem c10_stop_pins_answers_file :
    (∀ (fs : FS) (s : MgrState) (cp : Option String) (d : Bool),
        (stop fs s cp d).st.answers_file =
          some (pyJoin s.app_path ANSWERS_RUNTIME_FILE)) ∧
    (∀ (fs : FS) (s : MgrState) (doc : AnswersDoc),
        s.answers_file = some (pyJoin s.app_path ANSWERS_RUNTIME_FILE) →
        fs.load (pyJoin s.app_path ANSWERS_RUNTIME_FILE) = some doc →
        (process_answers fs s).1.answers_file =
          some (pyJoin s.app_path ANSWERS_RUNTIME_FILE) ∧
        (process_answers fs s).1.answers =
          (mergeCli doc s.cli_answers).1) ∧
    (∀ (fs : FS) (provs : List String) (s : MgrState)
        (cp ao : Option String) (ask d : Bool),
        s.answers_file.isSome = true →
        run fs provs s cp ao ask d = run fsEmpty provs s cp ao ask d) := by
  refine ⟨?_, ?_, ?_⟩
  · intro fs s cp d
    unfold stop
    rcases hpr : process_answers fs
        { s with
          answers_file := some (pyJoin s.app_path ANSWERS_RUNTIME_FILE) }
      with ⟨s2, e⟩
    have h2 : s2.answers_file =
        some (pyJoin s.app_path ANSWERS_RUNTIME_FILE) := by
      have hk := process_answers_keeps_some fs
        { s with
          answers_file := some (pyJoin s.app_path ANSWERS_RUNTIME_FILE) }
        (pyJoin s.app_path ANSWERS_RUNTIME_FILE) rfl
      rw [hpr] at hk
      exact hk
    cases e <;> simp [hpr, h2]
  · intro fs s doc hpin hload
    refine ⟨process_answers_keeps_some fs s _ hpin, ?_⟩
    rw [process_answers_of_some fs s _ doc hpin hload]
  · intro fs provs s cp ao ask d h
    rcases Option.isSome_iff_exists.mp h with ⟨f, hf⟩
    simp [run, hf]

/-- Witness for C10. -/
theorem c10_stop_pins_answers_file_witness :
    (stop c10fs c10s none false).st.answers_file =
      some (pyJoin "/app" ANSWERS_RUNTIME_FILE) ∧
    (process_answers c10fs c10s2).1.answers = (mergeCli c10doc []).1 ∧
    run c10fs [] c10s2 none none false false =
      run fsEmpty [] c10s2 none none false false :=
  ⟨c10_stop_pins_answers_file.1 c10fs c10s none false,
   (c10_stop_pins_answers_file.2.1 c10fs c10s2 c10doc rfl (by decide)).2,
   c10_stop_pins_answers_file.2.2 c10fs [] c10s2 none none false false
     (by decide)⟩

theorem resolveLoc_local (env : Env) (a : String) (dst : Option String)
    (hex : env.fs.pathExists (resolvePath env.root a) = true) :
    (resolveLoc env a dst).1 = none ∧
    (optTruthy (effDest env dst) = false →
        (resolveLoc env a dst).2.1 = some (resolvePath env.root a) ∧
        (resolveLoc env a dst).2.2 = []) ∧
    (∀ d, effDest env dst = some d → d ≠ "" →
        (resolveLoc env a dst).2.1 = some d ∧
        (resolveLoc env a dst).2.2 =
          [Effect.copyDir (resolvePath env.root a) d true]) := by
  rcases hd : effDest env dst with _ | d
  · refine ⟨?_, ?_, ?_⟩
    · simp [resolveLoc, hex, hd]
    · intro _
      constructor <;> simp [resolveLoc, hex, hd]
    · intro d hdd
      cases hdd
  · by_cases hde : d = ""
    · subst hde
      refine ⟨?_, ?_, ?_⟩
      · simp [resolveLoc, hex, hd]
      · intro _
        constructor <;> simp [resolveLoc, hex, hd]
      · intro d2 hdd hne
        cases hdd
        exact absurd rfl hne
    · refine ⟨?_, ?_, ?_⟩
      · simp [resolveLoc, hex, hd]
      · intro ht
        simp [optTruthy, hde] at ht
      · intro d2 hdd hne
        cases hdd
        constructor <;> simp [resolveLoc, hex, hd, hde]

theorem resolveLoc_image (env : Env) (a : String) (dst : Option String)
    (hex : env.fs.pathExists (resolvePath env.root a) = false)
    (hsp : resolvePath env.root a ≠ "") :
    (resolveLoc env a dst).1 = some (resolvePath env.root a) ∧
    (∀ d, effDest env dst = some d → d ≠ "" →
        (resolveLoc env a dst).2.1 = some d) ∧
    (optTruthy (effDest env dst) = false →
        (resolveLoc env a dst).2.1 =
          some (env.cacheDir (resolvePath env.root a))) ∧
    (resolveLoc env a dst).2.2 = [] := by
  rcases hd : effDest env dst with _ | d
  · refine ⟨?_, ?_, ?_, ?_⟩
    · simp [resolveLoc, hex, hd, hsp]
    · intro d hdd
      cases hdd
    · intro _
      simp [resolveLoc, hex, hd, hsp]
    · simp [resolveLoc, hex, hd, hsp]
  · by_cases hde : d = ""
    · subst hde
      refine ⟨?_, ?_, ?_, ?_⟩
      · simp [resolveLoc, hex, hd, hsp]
      · intro d2 hdd hne
        cases hdd
        exact absurd rfl hne
      · intro _
        simp [resolveLoc, hex, hd, hsp]
      · simp [resolveLoc, hex, hd, hsp]
    · refine ⟨?_, ?_, ?_, ?_⟩
      · simp [resolveLoc, hex, hd, hsp]
      · intro d2 hdd hne
        cases hdd
        simp [resolveLoc, hex, hd, hsp, hde]
      · intro ht
        simp [optTruthy, hde] at ht
      · simp [resolveLoc, hex, hd, hsp, hde]

theorem resolveLoc_empty_spec (env : Env) (a : String) (dst : Option String)
    (hsp : resolvePath env.root a = "") :
    (resolveLoc env a dst).2.1 = none := by
  have hex : env.fs.pathExists "" = false := by
    simp [FS.pathExists]
  rcases hd : effDest env dst with _ | d <;> simp [resolveLoc, hsp, hex, hd]

theorem initAnswers_frame (env : Env) (s0 s1 : MgrState)
    (h : initAnswers env s0 = Except.ok s1) :
    s1.app_path = s0.app_path ∧ s1.image = s0.image := by
  have hfr := process_answers_frame env.fs s0
  unfold initAnswers at h
  rcases hpr : process_answers env.fs s0 with ⟨sp, e⟩
  rw [hpr] at h hfr
  dsimp at h
  cases e with
  | some err => exact absurd h (by simp)
  | none =>
      dsimp at h
      by_cases hos : env.onOpenshift
      · rw [if_pos hos] at h
        rcases hpo : platform_override env sp.answers with ⟨a2, e2⟩
        rw [hpo] at h
        dsimp at h
        cases e2 with
        | some err => exact absurd h (by simp)
        | none =>
            dsimp at h
            cases h
            exact ⟨hfr.1, hfr.2.1⟩
      · rw [if_neg hos] at h
        cases h
        exact ⟨hfr.1, hfr.2.1⟩

theorem initMgr_ok (env : Env) (a : String) (dst : Option String)
    (cli : List (String × String)) (af : Option String)
    (s : MgrState) (effs : List Effect)
    (h : initMgr env a dst cli af = Except.ok (s, effs)) :
    (resolveLoc env a dst).2.1 = some s.app_path ∧
    s.image = (resolveLoc env a dst).1 ∧
    effs = (resolveLoc env a dst).2.2 := by
  unfold initMgr at h
  rcases hr : resolveLoc env a dst with ⟨img, apOpt, effs0⟩
  rw [hr] at h
  dsimp at h
  cases apOpt with
  | none => exact absurd h (by simp)
  | some ap =>
      dsimp at h
      rcases hc : checkAnswersFile env (af.map (resolvePath env.root))
        with e | afo
      · rw [hc] at h
        exact absurd h (by simp)
      · rw [hc] at h
        dsimp at h
        rcases hi : initAnswers env
            { answers := DEFAULT_ANSWERS, cli_answers := cli,
              answers_file := afo, app_path := ap, image := img }
          with e | s1
        · rw [hi] at h
          exact absurd h (by simp)
        · rw [hi] at h
          dsimp at h
          simp only [Except.ok.injEq, Prod.mk.injEq] at h
          obtain ⟨hs, he⟩ := h
          subst hs
          subst he
          obtain ⟨hap, him⟩ := initAnswers_frame env _ s1 hi
          dsimp at hap him
          exact ⟨by rw [hap], by rw [him], rfl⟩

/-- C4: for every successful construction — if the (root-resolved) source
specifier names an existing filesystem path then the source kind is a
local path (no image) with the app path equal to that path, and when a
truthy destination is in force the bundle is copied into it with
update=true (non-destructive merge) and the app path becomes the
destination; otherwise the source kind is a remote image whose reference
is the source specifier, and the app path is the destination if truthy,
else the cache directory derived from the image reference. In each case
the app path is set to exactly one of these values once construction
completes (`app_path` is total on constructed states). -/
theorem c4_construction (env : Env) (app_spec : String)
    (destination : Option String) (cli : List (String × String))
    (af : Option String) (s : MgrState) (effs : List Effect)
    (h : initMgr env app_spec destination cli af = Except.ok (s, effs)) :
    (env.fs.pathExists (resolvePath env.root app_spec) = true →
        s.image = none ∧
        (optTruthy (effDest env destination) = false →
            s.app_path = resolvePath env.root app_spec ∧ effs = []) ∧
        (∀ d, effDest env destination = some d → d ≠ "" →
            s.app_path = d ∧
            effs =
              [Effect.copyDir (resolvePath env.root app_spec) d true])) ∧
    (env.fs.pathExists (resolvePath env.root app_spec) = false →
        s.image = some (resolvePath env.root app_spec) ∧
        (∀ d, effDest env destination = some d → d ≠ "" →
            s.app_path = d) ∧
        (optTruthy (effDest env destination) = false →
            s.app_path = env.cacheDir (resolvePath env.root app_spec))) := by
  obtain ⟨hap, him, hef⟩ := initMgr_ok env app_spec destination cli af s effs h
  constructor
  · intro hex
    obtain ⟨h1, h2, h3⟩ := resolveLoc_local env app_spec destination hex
    refine ⟨by rw [him, h1], ?_, ?_⟩
    · intro hnt
      obtain ⟨ha, he⟩ := h2 hnt
      rw [ha] at hap
      exact ⟨(Option.some.inj hap).symm, by rw [hef, he]⟩
    · intro d hdd hne
      obtain ⟨ha, he⟩ := h3 d hdd hne
      rw [ha] at hap
      exact ⟨(Option.some.inj hap).symm, by rw [hef, he]⟩
  · intro hex
    by_cases hsp : resolvePath env.root app_spec = ""
    · exfalso
      have hn := resolveLoc_empty_spec env app_spec destination hsp
      rw [hn] at hap
      exact Option.noConfusion hap
    · obtain ⟨h1, h2, h3, _⟩ :=
        resolveLoc_image env app_spec destination hex hsp
      refine ⟨by rw [him, h1], ?_, ?_⟩
      · intro d hdd hne
        have ha := h2 d hdd hne
        rw [ha] at hap
        exact (Option.some.inj hap).symm
      · intro hnt
        have ha := h3 hnt
        rw [ha] at hap
        exact (Option.some.inj hap).symm

/-- Witness for C4: promoting a local bundle to a destination. -/
theorem c4_construction_witness :
    c4state.image = none ∧ c4state.app_path = "/host/dst" ∧
    c4effs =
      [Effect.copyDir (resolvePath c4env.root "/src") "/host/dst" true] := by
  have h := c4_construction c4env "/src" (some "/dst") [] none c4state c4effs
    (by decide)
  have h1 := h.1 (by decide)
  have h2 := h1.2.2 "/host/dst" (by decide) (by decide)
  exact ⟨h1.1, h2.1, h2.2⟩

theorem platform_override_sets (env : Env) (a : AnswersDoc) (g : ConfSect)
    (tok ns : String) (hg : dictGet a GLOBAL_CONF = some g)
    (htok : env.token = some tok) (hns : env.podNamespace = some ns) :
    (platform_override env a).2 = none ∧
    globalKey (platform_override env a).1 "provider" = some "openshift" ∧
    globalKey (platform_override env a).1 "accesstoken" = some tok ∧
    globalKey (platform_override env a).1 "namespace" = some ns ∧
    globalKey (platform_override env a).1 "providerapi" =
      some env.apiEndpoint := by
  unfold platform_override
  rw [hg, htok, hns]
  dsimp only
  refine ⟨rfl, ?_, ?_, ?_, ?_⟩ <;> simp

/-- C1 (amended): loading an answers file fully replaces the current
document (non-global sections come from the file alone, regardless of the
previous document); each CLI-provided key then overwrites the file-loaded
value in the global section (keys the CLI does not mention keep the file
value); and when platform auto-detection fires at construction time the
platform-derived provider, access-token, namespace and API-endpoint
values override both. Platform precedence holds only for the document the
override is applied to — the override runs once, in `__init__`; see the
counterexample for a later re-invocation of answer resolution
overwriting it. -/
theorem c1_merge_precedence (fs : FS) (s : MgrState) (f : String)
    (doc : AnswersDoc) (g : ConfSect) (env : Env) (tok ns : String)
    (hfile : s.answers_file = some f)
    (hload : fs.load f = some doc)
    (hg : dictGet doc GLOBAL_CONF = some g)
    (htok : env.token = some tok)
    (hns : env.podNamespace = some ns) :
    (process_answers fs s).2 = none ∧
    (∀ sec, sec ≠ GLOBAL_CONF →
        dictGet (process_answers fs s).1.answers sec = dictGet doc sec) ∧
    (∀ k v, cliVal s.cli_answers k = some v →
        globalKey (process_answers fs s).1.answers k = some v) ∧
    (∀ k, cliVal s.cli_answers k = none →
        globalKey (process_answers fs s).1.answers k = dictGet g k) ∧
    (platform_override env (process_answers fs s).1.answers).2 = none ∧
    globalKey (platform_override env (process_answers fs s).1.answers).1
      "provider" = some "openshift" ∧
    globalKey (platform_override env (process_answers fs s).1.answers).1
      "accesstoken" = some tok ∧
    globalKey (platform_override env (process_answers fs s).1.answers).1
      "namespace" = some ns ∧
    globalKey (platform_override env (process_answers fs s).1.answers).1
      "providerapi" = some env.apiEndpoint := by
  have hpa := process_answers_of_some fs s f doc hfile hload
  have hmk := mergeCli_ok doc s.cli_answers g hg
  have hans : (process_answers fs s).1.answers =
      (mergeCli doc s.cli_answers).1 := by
    rw [hpa]
  have hga : ∃ g2, dictGet (mergeCli doc s.cli_answers).1 GLOBAL_CONF
      = some g2 := by
    by_cases hc : s.cli_answers.isEmpty
    · have hnil : s.cli_answers = [] := List.isEmpty_iff.mp hc
      exact ⟨g, by simp [hnil, mergeCli_nil, hg]⟩
    · exact ⟨cliFold g s.cli_answers, by simp [mergeCli, hc, hg]⟩
  obtain ⟨g2, hg2⟩ := hga
  have hplat := platform_override_sets env (mergeCli doc s.cli_answers).1
    g2 tok ns hg2 htok hns
  refine ⟨?_, ?_, ?_, ?_, ?_, ?_, ?_, ?_, ?_⟩
  · rw [hpa]
    exact hmk.1
  · intro sec hsec
    rw [hans]
    exact hmk.2.2 sec hsec
  · intro k v hk
    rw [hans]
    have hv := hmk.2.1 k
    rw [hk] at hv
    exact hv
  · intro k hk
    rw [hans]
    have hv := hmk.2.1 k
    rw [hk] at hv
    exact hv
  · rw [hans]
    exact hplat.1
  · rw [hans]
    exact hplat.2.1
  · rw [hans]
    exact hplat.2.2.1
  · rw [hans]
    exact hplat.2.2.2.1
  · rw [hans]
    exact hplat.2.2.2.2

/-- C1 counterexample: constructing on OpenShift with a CLI provider gives
a document whose provider is the platform value, but the very next
re-invocation of answer resolution (what `run` does post-unpack when no
answers file was found) re-merges the CLI answers without re-applying the
platform override, leaving provider = "docker" — platform precedence does
NOT survive later re-invocations, refuting the claim's universal
"including after any later re-invocation". -/
theorem c1_counterexample :
    initMgr c1env "/app" none [("provider", "docker")] none =
      Except.ok (c1state, []) ∧
    globalKey c1state.answers "provider" = some "openshift" ∧
    (process_answers c1fs c1state).2 = none ∧
    globalKey (process_answers c1fs c1state).1.answers "provider" =
      some "docker" := by
  decide

/-- Witness for C1: the CLI provider beats the file value, component
sections come from the file, and the platform override beats both. -/
theorem c1_merge_precedence_witness :
    globalKey (process_answers c1wfs c1ws).1.answers "provider" =
      some "docker" ∧
    globalKey (process_answers c1wfs c1ws).1.answers "namespace" =
      some "file-ns" ∧
    dictGet (process_answers c1wfs c1ws).1.answers "comp1" =
      some [("a", "b")] ∧
    globalKey
      (platform_override c1wenv (process_answers c1wfs c1ws).1.answers).1
      "provider" = some "openshift" := by
  have h := c1_merge_precedence c1wfs c1ws "/af"
    [("general", [("provider", "file-prov"), ("namespace", "file-ns")]),
     ("comp1", [("a", "b")])]
    [("provider", "file-prov"), ("namespace", "file-ns")]
    c1wenv "tok" "podns" rfl (by decide) (by decide) rfl rfl
  refine ⟨h.2.2.1 "provider" "docker" (by decide), ?_, ?_,
    h.2.2.2.2.2.1⟩
  · rw [h.2.2.2.1 "namespace" (by decide)]
    decide
  · rw [h.2.1 "comp1" (by decide)]
    decide

theorem writtenStep_skip (path : String) (acc : Option AnswersDoc)
    (e : Effect) (h : isWriteEffect e = false) :
    writtenStep path acc e = acc := by
  cases e <;> simp_all [writtenStep, isWriteEffect]

theorem runTail_aliased_provider (s1 : MgrState) (nul0 : AnswersDoc)
    (p : String) (ao : Option String) (ask d : Bool) (ue : Effect)
    (hue : isWriteEffect ue = false)
    (hok : (runTail s1 nul0 true [p] none ao ask d ue).err = none) :
    writtenKey (runTail s1 nul0 true [p] none ao ask d ue)
        (pyJoin s1.app_path ANSWERS_RUNTIME_FILE) PROVIDER_KEY =
      some (some p) := by
  cases hgg : dictGet s1.answers GLOBAL_CONF with
  | none =>
      have herr : (runTail s1 nul0 true [p] none ao ask d ue).err =
          some Err.keyError := by
        simp [runTail, autoSelect, hgg]
      rw [herr] at hok
      exact Option.noConfusion hok
  | some g =>
      have hauto : autoSelect [p] none s1.answers =
          (dictSet s1.answers GLOBAL_CONF (dictSet g PROVIDER_KEY p),
           none) := by
        simp [autoSelect, hgg]
      have hga2 : dictGet
          (dictSet s1.answers GLOBAL_CONF (dictSet g PROVIDER_KEY p))
          GLOBAL_CONF = some (dictSet g PROVIDER_KEY p) :=
        dictGet_dictSet_self _ _ _
      have hprov := get_runtime_answers_provider_of_none _ _ hga2
      rw [dictGet_dictSet_self] at hprov
      unfold runTail
      rw [hauto]
      dsimp only
      cases ao with
      | none =>
          simp [writtenKey, writtenDoc, writtenStep_skip _ _ _ hue,
            writtenStep, hprov]
      | some aop =>
          by_cases hap : aop = ""
          · simp [hap, writtenKey, writtenDoc,
              writtenStep_skip _ _ _ hue, writtenStep, hprov]
          · by_cases hcl : aop = pyJoin s1.app_path ANSWERS_RUNTIME_FILE
            · subst hcl
              simp [hap, writtenKey, writtenDoc,
                writtenStep_skip _ _ _ hue, writtenStep, hprov]
            · simp [hap, hcl, writtenKey, writtenDoc,
                writtenStep_skip _ _ _ hue, writtenStep, hprov]

/-- C6 (amended): when `run` is invoked with no explicit CLI provider and
the app path supports exactly one provider, that provider is auto-selected
and the runtime answers file written at the end of `run` has its
global-section provider equal to it — provided the post-unpack answer
re-resolution does not discover a bundle-embedded answers file (either an
answers file was already resolved, or none exists in the app path). See
the counterexample for the discovery case, where the auto-selected
provider misses the written file. -/
theorem c6_auto_provider (fs : FS) (provs : List String) (s : MgrState)
    (p : String) (ao : Option String) (ask d : Bool)
    (hp : provs = [p])
    (hno : s.answers_file.isSome = true ∨
        fs.isfile (pyJoin s.app_path ANSWERS_FILE) = false)
    (hok : (run fs provs s none ao ask d).err = none) :
    writtenKey (run fs provs s none ao ask d)
        (pyJoin s.app_path ANSWERS_RUNTIME_FILE) PROVIDER_KEY =
      some (some p) := by
  subst hp
  have hue : isWriteEffect (unpackEffect s d false) = false := by
    unfold unpackEffect isWriteEffect
    cases s.image with
    | none => rfl
    | some i => by_cases hi : i = "" <;> simp [hi]
  cases hfo : s.answers_file with
  | some f =>
      have hrun : run fs [p] s none ao ask d =
          runTail s s.answers true [p] none ao ask d
            (unpackEffect s d false) := by
        simp [run, hfo]
      rw [hrun] at hok ⊢
      exact runTail_aliased_provider s s.answers p ao ask d _ hue hok
  | none =>
      have hnof : fs.isfile (pyJoin s.app_path ANSWERS_FILE) = false := by
        rcases hno with hsome | hnof
        · rw [hfo] at hsome
          simp at hsome
        · exact hnof
      have hpr := process_answers_of_none_nofile fs s hfo hnof
      cases he : (mergeCli s.answers s.cli_answers).2 with
      | some e =>
          have herr : run fs [p] s none ao ask d =
              { st := { s with answers := (mergeCli s.answers
                  s.cli_answers).1 },
                err := some e, effects := [unpackEffect s d false] } := by
            simp [run, hfo, hpr, he]
          rw [herr] at hok
          exact Option.noConfusion hok
      | none =>
          have hrun : run fs [p] s none ao ask d =
              runTail { s with answers := (mergeCli s.answers
                  s.cli_answers).1 }
                (mergeCli s.answers s.cli_answers).1
                true [p] none ao ask d (unpackEffect s d false) := by
            simp [run, hfo, hpr, he]
          rw [hrun] at hok ⊢
          exact runTail_aliased_provider _ _ p ao ask d _ hue hok

/-- C6 counterexample: exactly one provider is available and none was
given on the CLI, so `run` auto-selects it into the controller's answers
document (provider = "kubernetes" there) — but because the re-resolution
discovered the embedded answers file and rebound `self.answers`, the
runtime answers file is derived from the bundle config captured at unpack
time and carries NO provider at all. -/
theorem c6_counterexample :
    (run c6fs ["kubernetes"] c6s none none false false).err = none ∧
    globalKey (run c6fs ["kubernetes"] c6s none none false false).st.answers
        "provider" = some "kubernetes" ∧
    writtenKey (run c6fs ["kubernetes"] c6s none none false false)
        (pyJoin "/app" ANSWERS_RUNTIME_FILE) "provider" = some none := by
  decide

/-- Witness for C6: one provider available, none supplied, no embedded
file discovered — the runtime answers file records the auto-selected
provider. -/
theorem c6_auto_provider_witness :
    writtenKey (run fsEmpty ["kubernetes"] c6ws none none false false)
        (pyJoin "/app" ANSWERS_RUNTIME_FILE) PROVIDER_KEY =
      some (some "kubernetes") :=
  c6_auto_provider fsEmpty ["kubernetes"] c6ws "kubernetes" none false false
    rfl (Or.inl (by decide)) (by decide)

end Atomicapp
